import Mathlib

/-!
Verification development for the silo-atq-module repository
(src/main.mts). The module is a three-stage pipeline: a URL resolver
(prepareUrl), a paginated fetcher (fetchData) and a record transformer
(transformSilosToTags), driven by the orchestration loop in
TagService.returnTags. Every definition below is a shallow embedding of
the corresponding TypeScript function; JavaScript strings are modelled as
Lean strings (sequences of Unicode scalar values), JavaScript numbers
holding timestamps as Int, and side effects (console output, the network)
as explicit values threaded through the definitions.
-/

namespace SiloATQ

/-- A raw record returned by the subgraph: `interface Silo` in
src/main.mts (fields id, name, createdTimestamp). -/
structure Silo where
  id : String
  name : String
  createdTimestamp : Int
deriving DecidableEq

/-- The characters stripped by the JavaScript String.prototype.trim
method, as used in containsInvalidValue: the ECMAScript WhiteSpace
production (tab, vertical tab, form feed, space, no-break space,
ZWNBSP/BOM and every Space_Separator code point: U+1680, U+2000-U+200A,
U+202F, U+205F, U+3000) together with the LineTerminator production
(LF, CR, line separator, paragraph separator). -/
def jsWhitespace (c : Char) : Bool :=
  c == ' ' || c == '\t' || c == '\n' || c == '\r' || c == '\x0b' ||
  c == '\x0c' || c == '\u00A0' || c == '\u1680' ||
  ('\u2000' ≤ c && c ≤ '\u200A') || c == '\u2028' || c == '\u2029' ||
  c == '\u202F' || c == '\u205F' || c == '\u3000' || c == '\uFEFF'

/-- JavaScript `s.trim()` on the underlying character list: drop
leading and trailing whitespace. -/
def jsTrimL (cs : List Char) : List Char :=
  ((cs.dropWhile jsWhitespace).reverse.dropWhile jsWhitespace).reverse

/-- JavaScript `s.trim()` at the String level. -/
def jsTrimStr (s : String) : String :=
  String.mk (jsTrimL s.data)

/-- The regular-expression test `/<[^>]*>/.test(text)` from
containsInvalidValue (src/main.mts line 79). The regex has a match in
`text` exactly when some occurrence of the character `<` is followed,
further right, by an occurrence of `>`: the `[^>]*` part then matches
the (non-`>`) characters up to the first such `>`. The recursion below
scans for such a `<`. -/
def hasTag : List Char → Bool
  | [] => false
  | c :: rest => (c == '<' && rest.contains '>') || hasTag rest

/-- `containsInvalidValue` (src/main.mts lines 78-82): a name is invalid
when the HTML-tag regex matches or the trimmed string is empty. -/
def containsInvalidValue (text : String) : Bool :=
  let containsHtml := hasTag text.data
  let isEmpty := jsTrimStr text == ""
  isEmpty || containsHtml

/-- `truncateString` (src/main.mts lines 85-90): keep strings of length
at most maxLength unchanged, otherwise keep the first maxLength - 3
characters and append the three-character ellipsis. (The function is
only ever invoked with maxLength = 45, so the Nat subtraction agrees
with the JavaScript arithmetic.) -/
def truncateString (text : String) (maxLength : Nat) : String :=
  if text.data.length > maxLength then
    String.mk (text.data.take (maxLength - 3)) ++ "..."
  else text

/-- The characters encodeURIComponent leaves unescaped: ASCII
alphanumerics and `- _ . ! ~ * ( )` together with the apostrophe. -/
def uriUnreserved (c : Char) : Bool :=
  c.isAlphanum || c == '-' || c == '_' || c == '.' || c == '!' ||
  c == '~' || c == '*' || c == '\x27' || c == '(' || c == ')'

/-- The UTF-8 bytes of one Unicode scalar value (encodeURIComponent
percent-escapes each byte of the UTF-8 encoding). -/
def utf8Bytes (c : Char) : List Nat :=
  let n := c.toNat
  if n < 0x80 then [n]
  else if n < 0x800 then [0xC0 + n / 64, 0x80 + n % 64]
  else if n < 0x10000 then [0xE0 + n / 4096, 0x80 + n / 64 % 64, 0x80 + n % 64]
  else [0xF0 + n / 262144, 0x80 + n / 4096 % 64, 0x80 + n / 64 % 64, 0x80 + n % 64]

/-- An uppercase hexadecimal digit, for percent escapes. -/
def hexDigit (n : Nat) : Char :=
  if n < 10 then Char.ofNat (48 + n) else Char.ofNat (55 + n)

/-- A percent escape `%XX` for one byte. -/
def percentByte (b : Nat) : List Char :=
  ['%', hexDigit (b / 16), hexDigit (b % 16)]

/-- JavaScript `encodeURIComponent`: unreserved characters pass through,
every other character is replaced by the percent escapes of its UTF-8
bytes. (Lean strings contain no lone surrogates, so the URIError case
of the JavaScript builtin cannot arise.) -/
def encodeURIComponent (s : String) : String :=
  String.mk (s.data.flatMap fun c =>
    if uriUnreserved c then [c] else (utf8Bytes c).flatMap percentByte)

/-- Split a character list at the first occurrence of the pattern
`pat`: `some (pre, suf)` with the list equal to pre ++ pat ++ suf and no
occurrence of pat starting inside pre, or `none` when pat does not
occur. -/
def splitFirstL (s pat : List Char) : Option (List Char × List Char) :=
  match s with
  | [] => if pat.isEmpty then some ([], []) else none
  | c :: rest =>
    if pat.isPrefixOf (c :: rest) then some ([], (c :: rest).drop pat.length)
    else
      match splitFirstL rest pat with
      | some (pre, suf) => some (c :: pre, suf)
      | none => none

/-- JavaScript `s.replace(pat, rep)` with a string pattern: replace the
first occurrence only. (The replacement produced by encodeURIComponent
never contains `$`, so the special replacement patterns of the builtin
do not arise and plain splicing is exact.) -/
def replaceFirst (s pat rep : String) : String :=
  match splitFirstL s.data pat.data with
  | some (pre, suf) => String.mk pre ++ rep ++ String.mk suf
  | none => s

/-- The number of positions of `s` at which the (nonempty) pattern
`pat` occurs, used to state that a template contains the placeholder
exactly once. -/
def countOccurL (pat : List Char) : List Char → Nat
  | [] => 0
  | c :: rest => (if pat.isPrefixOf (c :: rest) then 1 else 0) + countOccurL pat rest

/-- The value type of the SUBGRAPH_URLS record (src/main.mts lines
5-26): an object holding the decentralized endpoint template. -/
structure SubgraphEndpoints where
  decentralized : String
deriving DecidableEq

/-- `SUBGRAPH_URLS` (src/main.mts lines 5-26): the static map from
chain identifier to endpoint template, in source order. -/
def SUBGRAPH_URLS : List (String × SubgraphEndpoints) :=
  [("1", ⟨"https://gateway.thegraph.com/api/[api-key]/subgraphs/id/GTEyHhRmhRRJkQfrDWsapcZ8sBKAka4GFej6gn3BpJNq"⟩),
   ("10", ⟨"https://gateway.thegraph.com/api/[api-key]/subgraphs/id/HVhUwbDrY5uGyz5u3bvKQVfmagVet3Uwy7jWjFrvT6s6"⟩),
   ("8453", ⟨"https://gateway.thegraph.com/api/[api-key]/subgraphs/id/HzQEXpsJuq7XQa4zXEJU38aUnG7mgZ6gA74HauHyYZzQ"⟩),
   ("42161", ⟨"https://gateway.thegraph.com/api/[api-key]/subgraphs/id/2ufoztRpybsgogPVW6j9NTn1JmBWFYPKbP7pAabizADU"⟩)]

/-- A decimal numeral body as recognised by the JavaScript Number
conversion: digits, optionally around one decimal point. -/
def decimalBody (cs : List Char) : Bool :=
  match cs.span Char.isDigit with
  | (ds, []) => !ds.isEmpty
  | (ds, '.' :: rest) => (!ds.isEmpty || !rest.isEmpty) && rest.all Char.isDigit
  | _ => false

/-- A signed decimal numeral. -/
def decimalNumeral (cs : List Char) : Bool :=
  match cs with
  | '+' :: rest => decimalBody rest
  | '-' :: rest => decimalBody rest
  | _ => decimalBody cs

/-- The JavaScript test `isNaN(Number(s))` from prepareUrl line 128:
Number trims whitespace, converts the empty remainder to 0 (not NaN)
and parses a numeral otherwise. The hexadecimal, binary, octal,
exponent and Infinity forms of the builtin are omitted: prepareUrl only
reaches this test with a key of SUBGRAPH_URLS (the lookup failure
short-circuits the disjunction), and every key is a plain decimal
numeral, on which this model is exact. -/
def jsIsNaNNumber (s : String) : Bool :=
  let t := jsTrimL s.data
  if t.isEmpty then false else !decimalNumeral t

/-- `Object.keys(SUBGRAPH_URLS).join(", ")` as built in prepareUrl. -/
def supportedChainIds : String :=
  String.intercalate ", " (SUBGRAPH_URLS.map Prod.fst)

/-- `prepareUrl` (src/main.mts lines 126-135): look the chain id up in
SUBGRAPH_URLS; if the lookup fails or the id is not numeric, throw the
unsupported-chain error enumerating the supported ids; otherwise return
the endpoint template with the percent-encoded api key substituted for
the placeholder. Throwing is modelled by Except.error carrying the
message of the thrown Error. -/
def prepareUrl (chainId apiKey : String) : Except String String :=
  match SUBGRAPH_URLS.lookup chainId with
  | none =>
    .error ("Unsupported or invalid Chain ID provided: " ++ chainId ++
      ". Only the following values are accepted: " ++ supportedChainIds)
  | some urls =>
    if jsIsNaNNumber chainId then
      .error ("Unsupported or invalid Chain ID provided: " ++ chainId ++
        ". Only the following values are accepted: " ++ supportedChainIds)
    else
      .ok (replaceFirst urls.decentralized "[api-key]" (encodeURIComponent apiKey))

/-- One output tag. The source produces a plain object literal whose
five property names are part of the external contract, so a tag is
embedded as its ordered list of (property name, value) pairs. -/
abbrev TagRow := List (String × String)

/-- The rejection log line pushed for an invalid record
(src/main.mts line 146). -/
def rejectionLine (silo : Silo) : String :=
  "Silo: " ++ silo.id ++ " rejected due to invalid name - Name: " ++ silo.name

/-- The object literal built for one valid record in
transformSilosToTags (src/main.mts lines 156-167). -/
def tagOf (chainId : String) (silo : Silo) : TagRow :=
  let maxNameLength := 45
  let truncatedNameText := truncateString silo.name maxNameLength
  [("Contract Address", "eip155:" ++ chainId ++ ":" ++ silo.id),
   ("Public Name Tag", truncatedNameText ++ " Silo"),
   ("Project Name", "Silo v1"),
   ("UI/Website Link", "https://app.silo.finance/"),
   ("Public Note", "Silo v1\x27s official " ++ silo.name ++ " Silo contract.")]

/-- `transformSilosToTags` (src/main.mts lines 138-168): one pass over
the records partitions them into validSilos and rejectedNames (the
forEach with two push calls), then the valid records are mapped to
tags. The first component is the returned tag list; the second models
the rejection log lines handed to console.log. -/
def transformSilosToTags (chainId : String) (silos : List Silo) :
    List TagRow × List String :=
  let part := silos.foldl
    (fun (acc : List Silo × List String) silo =>
      if containsInvalidValue silo.name then
        (acc.1, acc.2 ++ [rejectionLine silo])
      else
        (acc.1 ++ [silo], acc.2))
    ([], [])
  (part.1.map (tagOf chainId), part.2)

/-- A value thrown inside the fetch loop. Every throw in fetchData and
in node-fetch constructs an Error instance (an object with a string
message), modelled by jsError carrying that message; nonError models a
thrown value not exposing a string message, the case the isError type
guard rejects. -/
inductive Thrown where
  | jsError (message : String)
  | nonError
deriving DecidableEq

/-- The `isError` type guard (src/main.mts lines 68-75): does the
caught value expose a string message. -/
def isError : Thrown → Bool
  | .jsError _ => true
  | .nonError => false

/-- JavaScript string conversion of a caught Error, as interpolated by
the template literal in the catch block: `Error: ` followed by the
message, or just `Error` when the message is empty. (The nonError case
is never stringified by the code.) -/
def thrownToString : Thrown → String
  | .jsError m => if m = "" then "Error" else "Error: " ++ m
  | .nonError => ""

/-- The GraphQL error objects of the response body
(`errors?: { message: string }[]`). -/
structure GraphQLError where
  message : String
deriving DecidableEq

/-- The `data` field of the response body. The silos field is optional
here because fetchData checks `!result.data.silos` at run time. -/
structure GraphQLData where
  silos : Option (List Silo)
deriving DecidableEq

/-- The parsed response body (`interface GraphQLResponse`). -/
structure GraphQLResponse where
  data : Option GraphQLData
  errors : Option (List GraphQLError)
deriving DecidableEq

/-- The transport response fetchData inspects: the ok flag, the status
code and the parsed JSON body. -/
structure HttpResponse where
  ok : Bool
  status : Nat
  body : GraphQLResponse
deriving DecidableEq

/-- `fetchData` (src/main.mts lines 93-123) after the transport call
returned `response`: throw on a non-ok status; when the body carries an
errors list, log each message and throw the generic GraphQL error;
throw when the data or silos field is missing; return the silos list
otherwise. The first component is the result (Except models throwing),
the second the console.error lines. -/
def fetchData (response : HttpResponse) : Except Thrown (List Silo) × List String :=
  if !response.ok then
    (.error (.jsError ("HTTP error: " ++ toString response.status)), [])
  else
    match response.body.errors with
    | some errs =>
      (.error (.jsError "GraphQL errors occurred: see logs for details."),
       errs.map (fun e => "GraphQL error: " ++ e.message))
    | none =>
      match response.body.data with
      | none => (.error (.jsError "No silos data found."), [])
      | some d =>
        match d.silos with
        | none => (.error (.jsError "No silos data found."), [])
        | some silos => (.ok silos, [])

/-- `Math.max(...silos.map(s => s.createdTimestamp))` from the loop
body (src/main.mts line 190). The empty case is unreachable: the code
only evaluates this on a page of exactly 1000 records. -/
def maxTimestamp (silos : List Silo) : Int :=
  match silos.map (fun s => s.createdTimestamp) with
  | [] => 0
  | t :: ts => ts.foldl max t

/-- The while loop of TagService.returnTags (src/main.mts lines
182-201). The page fetch is abstracted as a function from the cursor to
the outcome of fetchData. fuel bounds the number of iterations (none
models a run that does not terminate within it); allTags and requests
accumulate the produced tags and, as instrumentation, the cursor of
every page request issued. On a fetch failure the catch block wraps the
error as the code does: isError values are rewrapped with the
`Failed fetching data` prefix around the stringified Error, other
values become the generic unknown-error message. -/
def returnTagsLoop (fetchPage : Int → Except Thrown (List Silo)) (chainId : String) :
    Nat → Int → List TagRow → List Int → Option (Except String (List TagRow) × List Int)
  | 0, _, _, _ => none
  | fuel + 1, lastTimestamp, allTags, requests =>
    match fetchPage lastTimestamp with
    | .error e =>
      if isError e then
        some (.error ("Failed fetching data: " ++ thrownToString e),
          requests ++ [lastTimestamp])
      else
        some (.error "An unknown error occurred during fetch operation.",
          requests ++ [lastTimestamp])
    | .ok silos =>
      let tags := (transformSilosToTags chainId silos).1
      let allTags2 := allTags ++ tags
      if silos.length = 1000 then
        returnTagsLoop fetchPage chainId fuel (maxTimestamp silos) allTags2
          (requests ++ [lastTimestamp])
      else
        some (.ok allTags2, requests ++ [lastTimestamp])

/-- `TagService.returnTags` (src/main.mts lines 171-204): resolve the
URL once (a prepareUrl throw propagates to the caller), then run the
pagination loop with the cursor starting at 0 and an empty accumulator.
fetchPage abstracts fetchData applied to the resolved URL. -/
def returnTags (fetchPage : String → Int → Except Thrown (List Silo))
    (chainId apiKey : String) (fuel : Nat) :
    Option (Except String (List TagRow) × List Int) :=
  match prepareUrl chainId apiKey with
  | .error e => some (.error e, [])
  | .ok url => returnTagsLoop (fetchPage url) chainId fuel 0 [] []

/-- A mock first page for the pagination scenario: exactly 1000 copies
of a valid record whose creation timestamp is 7. -/
def p1W : List Silo := List.replicate 1000 ⟨"0xaaa", "Alpha", 7⟩

/-- A mock second page: 5 copies of another valid record. -/
def p2W : List Silo := List.replicate 5 ⟨"0xbbb", "Beta", 9⟩

/-- A mock source for the pagination scenario: the initial cursor 0
yields the full first page, any other cursor the short second page. -/
def fetchW : String → Int → Except Thrown (List Silo) :=
  fun _ cursor => if cursor = 0 then .ok p1W else .ok p2W

/-- A mock page fetch that fails with an HTTP 500 Error on every
request. -/
def failJsW : Int → Except Thrown (List Silo) :=
  fun _ => .error (.jsError "HTTP error: 500")

/-! ### Helper lemmas -/

/-- Appending strings is appending their character lists. -/
theorem mk_append (a b : List Char) : String.mk a ++ String.mk b = String.mk (a ++ b) :=
  rfl

/-- The partitioning fold of transformSilosToTags, run from an arbitrary
pair of accumulators, appends the valid records and the rejection lines
of the invalid records. -/
theorem transform_foldl (silos : List Silo) :
    ∀ (v : List Silo) (r : List String),
      silos.foldl
        (fun (acc : List Silo × List String) silo =>
          if containsInvalidValue silo.name then
            (acc.1, acc.2 ++ [rejectionLine silo])
          else
            (acc.1 ++ [silo], acc.2))
        (v, r) =
      (v ++ silos.filter (fun s => !containsInvalidValue s.name),
       r ++ (silos.filter (fun s => containsInvalidValue s.name)).map rejectionLine) := by
  induction silos with
  | nil => intro v r; simp
  | cons s rest ih =>
    intro v r
    by_cases h : containsInvalidValue s.name
    · simp only [List.foldl_cons, if_pos h, ih, List.filter_cons, h]
      simp [h, List.append_assoc]
    · simp only [List.foldl_cons, if_neg h, ih, List.filter_cons]
      simp [h, List.append_assoc]

/-- The tag list produced by transformSilosToTags is the image of the
records with a valid name. -/
theorem transformSilosToTags_fst (chainId : String) (silos : List Silo) :
    (transformSilosToTags chainId silos).1 =
      (silos.filter fun s => !containsInvalidValue s.name).map (tagOf chainId) := by
  simp [transformSilosToTags, transform_foldl]

/-- The rejection log produced by transformSilosToTags lists exactly the
records with an invalid name. -/
theorem transformSilosToTags_snd (chainId : String) (silos : List Silo) :
    (transformSilosToTags chainId silos).2 =
      (silos.filter fun s => containsInvalidValue s.name).map rejectionLine := by
  simp [transformSilosToTags, transform_foldl]

/-- A member of a list sits after a segment free of it. -/
theorem mem_first_split {x : Char} :
    ∀ {l : List Char}, x ∈ l → ∃ p q, l = p ++ x :: q ∧ x ∉ p := by
  intro l hl
  induction l with
  | nil => cases hl
  | cons a t ih =>
    by_cases hax : a = x
    · exact ⟨[], t, by simp [hax], by simp⟩
    · rcases List.mem_cons.mp hl with h | h
      · exact absurd h.symm hax
      · obtain ⟨p, q, hpq, hnp⟩ := ih h
        exact ⟨a :: p, q, by rw [hpq]; rfl,
          by simp only [List.mem_cons]; rintro (h1 | h2)
             exacts [hax h1.symm, hnp h2]⟩

/-- The recursive scan hasTag is exactly the declarative reading of the
regex `<[^>]*>`: some `<` is later closed by a `>` with no `>`
in between. -/
theorem hasTag_iff (cs : List Char) :
    hasTag cs = true ↔ ∃ a b c, cs = a ++ '<' :: (b ++ '>' :: c) ∧ '>' ∉ b := by
  induction cs with
  | nil =>
    constructor
    · intro h; simp [hasTag] at h
    · rintro ⟨a, b, c, h, -⟩
      cases a <;> simp at h
  | cons x rest ih =>
    constructor
    · intro h
      have h0 : x = '<' ∧ '>' ∈ rest ∨ hasTag rest = true := by simpa [hasTag] using h
      rcases h0 with ⟨hx, hmem⟩ | h2
      · obtain ⟨p, q, hpq, hnp⟩ := mem_first_split hmem
        exact ⟨[], p, q, by rw [List.nil_append, hx, hpq], hnp⟩
      · obtain ⟨a, b, c, hcs, hnb⟩ := ih.mp h2
        exact ⟨x :: a, b, c, by rw [hcs]; rfl, hnb⟩
    · rintro ⟨a, b, c, hcs, hnb⟩
      match a, hcs with
      | [], hcs =>
        rw [List.nil_append] at hcs
        injection hcs with h1 h2
        subst h1; subst h2
        have hm : ('>' : Char) ∈ b ++ '>' :: c :=
          List.mem_append_right _ (List.mem_cons_self _ _)
        simp [hasTag, hm]
      | a0 :: a1, hcs =>
        rw [List.cons_append] at hcs
        injection hcs with h1 h2
        subst h1; subst h2
        simp only [hasTag, Bool.or_eq_true]
        exact Or.inr (ih.mpr ⟨a1, b, c, rfl, hnb⟩)

/-- replaceFirst splices the replacement in at the split computed by
splitFirstL. -/
theorem replaceFirst_eq (s pat rep : String) (pre suf : List Char)
    (h : splitFirstL s.data pat.data = some (pre, suf)) :
    replaceFirst s pat rep = String.mk pre ++ rep ++ String.mk suf := by
  simp [replaceFirst, h]

/-- Folding max over copies of the seed returns the seed. -/
theorem foldl_max_const (n : Nat) (t : Int) :
    (List.replicate n t).foldl max t = t := by
  induction n with
  | zero => simp
  | succ k ih => simpa [List.replicate_succ] using ih

/-- Unfolding maxTimestamp on a nonempty page. -/
theorem maxTimestamp_cons (s : Silo) (rest : List Silo) :
    maxTimestamp (s :: rest) =
      (rest.map fun x => x.createdTimestamp).foldl max s.createdTimestamp :=
  rfl

/-- The maximum timestamp of a page of identical records is the shared
timestamp. -/
theorem maxTimestamp_replicate (n : Nat) (s : Silo) :
    maxTimestamp (List.replicate (n + 1) s) = s.createdTimestamp := by
  rw [List.replicate_succ, maxTimestamp_cons, List.map_replicate]
  exact foldl_max_const n s.createdTimestamp

/-- One loop iteration on a full page of 1000 records: transform,
append, advance the cursor to the maximum timestamp and continue. -/
theorem loop_step_continue (f : Int → Except Thrown (List Silo)) (chainId : String)
    (fuel : Nat) (cursor : Int) (acc : List TagRow) (reqs : List Int)
    (silos : List Silo) (hf : f cursor = .ok silos) (hlen : silos.length = 1000) :
    returnTagsLoop f chainId (fuel + 1) cursor acc reqs =
      returnTagsLoop f chainId fuel (maxTimestamp silos)
        (acc ++ (transformSilosToTags chainId silos).1) (reqs ++ [cursor]) := by
  simp [returnTagsLoop, hf, hlen]

/-- One loop iteration on a page shorter (or longer) than 1000 records:
transform, append and return the accumulated tags. -/
theorem loop_step_stop (f : Int → Except Thrown (List Silo)) (chainId : String)
    (fuel : Nat) (cursor : Int) (acc : List TagRow) (reqs : List Int)
    (silos : List Silo) (hf : f cursor = .ok silos) (hlen : silos.length ≠ 1000) :
    returnTagsLoop f chainId (fuel + 1) cursor acc reqs =
      some (.ok (acc ++ (transformSilosToTags chainId silos).1), reqs ++ [cursor]) := by
  simp [returnTagsLoop, hf, hlen]

/-! ### The claims -/

/-- C1: for every chain identifier outside the supported set
{"1", "10", "8453", "42161"} — non-numeric strings and the empty string
included — prepareUrl throws the unsupported-chain error whose text
enumerates exactly the supported identifiers, and returns no URL. -/
theorem claim_C1 (chainId apiKey : String)
    (h : chainId ∉ ["1", "10", "8453", "42161"]) :
    prepareUrl chainId apiKey =
      .error ("Unsupported or invalid Chain ID provided: " ++ chainId ++
        ". Only the following values are accepted: " ++ "1, 10, 8453, 42161") ∧
    ∀ url, prepareUrl chainId apiKey ≠ .ok url := by
  simp only [List.mem_cons, List.not_mem_nil, or_false, not_or] at h
  obtain ⟨h1, h2, h3, h4⟩ := h
  have b1 : (chainId == "1") = false := beq_eq_false_iff_ne.mpr h1
  have b2 : (chainId == "10") = false := beq_eq_false_iff_ne.mpr h2
  have b3 : (chainId == "8453") = false := beq_eq_false_iff_ne.mpr h3
  have b4 : (chainId == "42161") = false := beq_eq_false_iff_ne.mpr h4
  have hl : SUBGRAPH_URLS.lookup chainId = none := by
    simp [SUBGRAPH_URLS, List.lookup, b1, b2, b3, b4]
  have hmsg : supportedChainIds = "1, 10, 8453, 42161" := by decide
  constructor
  · simp [prepareUrl, hl, hmsg]
  · intro url
    simp [prepareUrl, hl]

/-- C1 witness: the unsupported identifier "2" is rejected with the
enumerating error message. -/
theorem claim_C1_witness :
    prepareUrl "2" "k" =
      .error ("Unsupported or invalid Chain ID provided: " ++ "2" ++
        ". Only the following values are accepted: " ++ "1, 10, 8453, 42161") ∧
    ∀ url, prepareUrl "2" "k" ≠ .ok url :=
  claim_C1 "2" "k" (by decide)

/-- C2: for each supported chain identifier and any credential,
prepareUrl returns that chain's endpoint template with the placeholder
"[api-key]" — which occurs exactly once in the template — replaced by
the percent-encoded credential. (The function is pure in the embedding,
so it has no other effect.) -/
theorem claim_C2 (chainId apiKey : String)
    (h : chainId ∈ ["1", "10", "8453", "42161"]) :
    ∃ pre suf : String,
      SUBGRAPH_URLS.lookup chainId = some ⟨pre ++ "[api-key]" ++ suf⟩ ∧
      countOccurL ("[api-key]").data (pre ++ "[api-key]" ++ suf).data = 1 ∧
      prepareUrl chainId apiKey = .ok (pre ++ encodeURIComponent apiKey ++ suf) := by
  have hpre : ∀ url PRE SUF : String,
      SUBGRAPH_URLS.lookup chainId = some ⟨url⟩ →
      jsIsNaNNumber chainId = false →
      splitFirstL url.data ("[api-key]").data = some (PRE.data, SUF.data) →
      prepareUrl chainId apiKey = .ok (PRE ++ encodeURIComponent apiKey ++ SUF) := by
    intro url PRE SUF hu hn hs
    have hr := replaceFirst_eq url "[api-key]" (encodeURIComponent apiKey) _ _ hs
    simp [prepareUrl, hu, hn, hr]
  simp only [List.mem_cons, List.not_mem_nil, or_false] at h
  rcases h with h | h | h | h <;> subst h
  · exact ⟨"https://gateway.thegraph.com/api/",
      "/subgraphs/id/GTEyHhRmhRRJkQfrDWsapcZ8sBKAka4GFej6gn3BpJNq",
      by decide, by decide,
      hpre "https://gateway.thegraph.com/api/[api-key]/subgraphs/id/GTEyHhRmhRRJkQfrDWsapcZ8sBKAka4GFej6gn3BpJNq"
        "https://gateway.thegraph.com/api/" "/subgraphs/id/GTEyHhRmhRRJkQfrDWsapcZ8sBKAka4GFej6gn3BpJNq"
        (by decide) (by decide) (by decide)⟩
  · exact ⟨"https://gateway.thegraph.com/api/",
      "/subgraphs/id/HVhUwbDrY5uGyz5u3bvKQVfmagVet3Uwy7jWjFrvT6s6",
      by decide, by decide,
      hpre "https://gateway.thegraph.com/api/[api-key]/subgraphs/id/HVhUwbDrY5uGyz5u3bvKQVfmagVet3Uwy7jWjFrvT6s6"
        "https://gateway.thegraph.com/api/" "/subgraphs/id/HVhUwbDrY5uGyz5u3bvKQVfmagVet3Uwy7jWjFrvT6s6"
        (by decide) (by decide) (by decide)⟩
  · exact ⟨"https://gateway.thegraph.com/api/",
      "/subgraphs/id/HzQEXpsJuq7XQa4zXEJU38aUnG7mgZ6gA74HauHyYZzQ",
      by decide, by decide,
      hpre "https://gateway.thegraph.com/api/[api-key]/subgraphs/id/HzQEXpsJuq7XQa4zXEJU38aUnG7mgZ6gA74HauHyYZzQ"
        "https://gateway.thegraph.com/api/" "/subgraphs/id/HzQEXpsJuq7XQa4zXEJU38aUnG7mgZ6gA74HauHyYZzQ"
        (by decide) (by decide) (by decide)⟩
  · exact ⟨"https://gateway.thegraph.com/api/",
      "/subgraphs/id/2ufoztRpybsgogPVW6j9NTn1JmBWFYPKbP7pAabizADU",
      by decide, by decide,
      hpre "https://gateway.thegraph.com/api/[api-key]/subgraphs/id/2ufoztRpybsgogPVW6j9NTn1JmBWFYPKbP7pAabizADU"
        "https://gateway.thegraph.com/api/" "/subgraphs/id/2ufoztRpybsgogPVW6j9NTn1JmBWFYPKbP7pAabizADU"
        (by decide) (by decide) (by decide)⟩

/-- C2 witness: chain "1" with the credential "my key" yields the
mainnet template around the percent-encoded credential. -/
theorem claim_C2_witness :
    ∃ pre suf : String,
      SUBGRAPH_URLS.lookup "1" = some ⟨pre ++ "[api-key]" ++ suf⟩ ∧
      countOccurL ("[api-key]").data (pre ++ "[api-key]" ++ suf).data = 1 ∧
      prepareUrl "1" "my key" = .ok (pre ++ encodeURIComponent "my key" ++ suf) :=
  claim_C2 "1" "my key" (by decide)

/-- C3: a record is excluded from the tag list exactly when its name is
invalid — empty after JavaScript trimming, or matched by the HTML-tag
regex, itself equivalent to containing a `<` later closed by a `>` —
and every excluded record contributes its id and raw name to the
rejection log; a whitespace-only name and a name with markup are
excluded, "Good Silo" is not. -/
theorem claim_C3 :
    (∀ chainId silos,
      (transformSilosToTags chainId silos).1 =
        (silos.filter fun s => !containsInvalidValue s.name).map (tagOf chainId) ∧
      (transformSilosToTags chainId silos).2 =
        (silos.filter fun s => containsInvalidValue s.name).map rejectionLine) ∧
    (∀ s : String, containsInvalidValue s = true ↔
      (jsTrimStr s = "" ∨ ∃ a b c, s.data = a ++ '<' :: (b ++ '>' :: c) ∧ '>' ∉ b)) ∧
    containsInvalidValue "  " = true ∧
    containsInvalidValue "<b>Evil</b>" = true ∧
    containsInvalidValue "Good Silo" = false ∧
    rejectionLine ⟨"0xb", "<b>Evil</b>", 8⟩ =
      "Silo: " ++ "0xb" ++ " rejected due to invalid name - Name: " ++ "<b>Evil</b>" := by
  refine ⟨fun chainId silos =>
      ⟨transformSilosToTags_fst chainId silos, transformSilosToTags_snd chainId silos⟩,
    fun s => ?_, by decide, by decide, by decide, by decide⟩
  constructor
  · intro h
    have h0 : jsTrimStr s = "" ∨ hasTag s.data = true := by
      simpa [containsInvalidValue] using h
    rcases h0 with h1 | h2
    · exact Or.inl h1
    · exact Or.inr ((hasTag_iff s.data).mp h2)
  · rintro (h1 | h2)
    · simp [containsInvalidValue, h1]
    · simp [containsInvalidValue, (hasTag_iff s.data).mpr h2]

/-- C4: a name longer than 45 characters is truncated to its first 42
characters plus the three-character ellipsis, total length exactly 45;
a name of at most 45 characters is left unchanged; the truncation is
what the public name tag of an output record carries; the spec examples
of length 50 and length 10 behave accordingly. -/
theorem claim_C4 :
    (∀ s : String,
      (45 < s.data.length →
        truncateString s 45 = String.mk (s.data.take 42) ++ "..." ∧
        (truncateString s 45).data.length = 45) ∧
      (s.data.length ≤ 45 → truncateString s 45 = s)) ∧
    (∀ chainId silo, (tagOf chainId silo).lookup "Public Name Tag" =
      some (truncateString silo.name 45 ++ " Silo")) ∧
    truncateString "01234567890123456789012345678901234567890123456789" 45 =
      "012345678901234567890123456789012345678901..." ∧
    ("012345678901234567890123456789012345678901...").data.length = 45 ∧
    truncateString "0123456789" 45 = "0123456789" := by
  refine ⟨fun s => ⟨fun hlen => ?_, fun hlen => ?_⟩,
    fun chainId silo => ?_, by decide, by decide, by decide⟩
  · have ht : truncateString s 45 = String.mk (s.data.take 42) ++ "..." := by
      simp only [truncateString]
      rw [if_pos (by omega)]
    refine ⟨ht, ?_⟩
    rw [ht]
    have hd : (String.mk (s.data.take 42) ++ "...").data =
        s.data.take 42 ++ ("...").data := rfl
    rw [hd, List.length_append, List.length_take,
      show ("...").data.length = 3 from rfl]
    omega
  · simp only [truncateString]
    rw [if_neg (by omega)]
  · simp [tagOf, List.lookup]

/-- C5: every tag produced by the transformer comes from a valid source
record and consists of exactly the five contract fields, with their
exact names and casing, holding the eip155 address, the truncated name
with the " Silo" suffix, the fixed project name, the fixed website link
and the note embedding the original untruncated name. -/
theorem claim_C5 (chainId : String) (silos : List Silo) (t : TagRow)
    (h : t ∈ (transformSilosToTags chainId silos).1) :
    ∃ silo, silo ∈ silos ∧ containsInvalidValue silo.name = false ∧
      t = [("Contract Address", "eip155:" ++ chainId ++ ":" ++ silo.id),
           ("Public Name Tag", truncateString silo.name 45 ++ " Silo"),
           ("Project Name", "Silo v1"),
           ("UI/Website Link", "https://app.silo.finance/"),
           ("Public Note", "Silo v1\x27s official " ++ silo.name ++ " Silo contract.")] ∧
      t.map Prod.fst = ["Contract Address", "Public Name Tag", "Project Name",
        "UI/Website Link", "Public Note"] := by
  rw [transformSilosToTags_fst] at h
  obtain ⟨silo, hmem, rfl⟩ := List.mem_map.mp h
  obtain ⟨hin, hval⟩ := List.mem_filter.mp hmem
  exact ⟨silo, hin, by simpa using hval, rfl, rfl⟩

/-- C5 witness: the tag of the valid record ("0xa", "Alpha", 7) on
chain "1". -/
theorem claim_C5_witness :
    ∃ silo, silo ∈ [(⟨"0xa", "Alpha", 7⟩ : Silo)] ∧
      containsInvalidValue silo.name = false ∧
      [("Contract Address", "eip155:1:0xa"),
       ("Public Name Tag", "Alpha Silo"),
       ("Project Name", "Silo v1"),
       ("UI/Website Link", "https://app.silo.finance/"),
       ("Public Note", "Silo v1\x27s official Alpha Silo contract.")] =
        [("Contract Address", "eip155:" ++ "1" ++ ":" ++ silo.id),
         ("Public Name Tag", truncateString silo.name 45 ++ " Silo"),
         ("Project Name", "Silo v1"),
         ("UI/Website Link", "https://app.silo.finance/"),
         ("Public Note", "Silo v1\x27s official " ++ silo.name ++ " Silo contract.")] ∧
      List.map Prod.fst
        [("Contract Address", "eip155:1:0xa"),
         ("Public Name Tag", "Alpha Silo"),
         ("Project Name", "Silo v1"),
         ("UI/Website Link", "https://app.silo.finance/"),
         ("Public Note", "Silo v1\x27s official Alpha Silo contract.")] =
        ["Contract Address", "Public Name Tag", "Project Name",
         "UI/Website Link", "Public Note"] :=
  claim_C5 "1" [⟨"0xa", "Alpha", 7⟩]
    [("Contract Address", "eip155:1:0xa"),
     ("Public Name Tag", "Alpha Silo"),
     ("Project Name", "Silo v1"),
     ("UI/Website Link", "https://app.silo.finance/"),
     ("Public Note", "Silo v1\x27s official Alpha Silo contract.")]
    (by decide)

/-- C6: returnTags resolves the URL, starts the cursor at 0 and loops,
appending each transformed page; the loop continues exactly when the
raw page has length 1000, in which case the next request uses the
maximum creation timestamp of the page just fetched; a 1000-record page
followed by a 5-record page therefore yields exactly the two requests
[0, max timestamp of page one] and, with every record valid, 1005 tags. -/
theorem claim_C6 (fetchPage : String → Int → Except Thrown (List Silo))
    (chainId apiKey url : String) (p1 p2 : List Silo) (fuel : Nat)
    (hurl : prepareUrl chainId apiKey = .ok url)
    (hf1 : fetchPage url 0 = .ok p1)
    (hlen1 : p1.length = 1000)
    (hf2 : fetchPage url (maxTimestamp p1) = .ok p2)
    (hlen2 : p2.length = 5)
    (hv1 : ∀ s ∈ p1, containsInvalidValue s.name = false)
    (hv2 : ∀ s ∈ p2, containsInvalidValue s.name = false) :
    returnTags fetchPage chainId apiKey (fuel + 2) =
      some (.ok ((transformSilosToTags chainId p1).1 ++
          (transformSilosToTags chainId p2).1),
        [0, maxTimestamp p1]) ∧
    ((transformSilosToTags chainId p1).1 ++
      (transformSilosToTags chainId p2).1).length = 1005 ∧
    (∀ (f : Int → Except Thrown (List Silo)) (c : String) (cursor : Int)
        (acc : List TagRow) (reqs : List Int) (silos : List Silo) (fu : Nat),
      f cursor = .ok silos →
      (silos.length = 1000 →
        returnTagsLoop f c (fu + 1) cursor acc reqs =
          returnTagsLoop f c fu (maxTimestamp silos)
            (acc ++ (transformSilosToTags c silos).1) (reqs ++ [cursor])) ∧
      (silos.length ≠ 1000 →
        returnTagsLoop f c (fu + 1) cursor acc reqs =
          some (.ok (acc ++ (transformSilosToTags c silos).1), reqs ++ [cursor]))) := by
  refine ⟨?_, ?_, fun f c cursor acc reqs silos fu hf =>
    ⟨fun hl => loop_step_continue f c fu cursor acc reqs silos hf hl,
     fun hl => loop_step_stop f c fu cursor acc reqs silos hf hl⟩⟩
  · have e1 := loop_step_continue (fetchPage url) chainId (fuel + 1) 0 [] [] p1 hf1 hlen1
    have e2 := loop_step_stop (fetchPage url) chainId fuel (maxTimestamp p1)
      ((transformSilosToTags chainId p1).1) [0] p2 hf2 (by omega)
    simp only [List.nil_append] at e1
    simp only [returnTags, hurl]
    show returnTagsLoop (fetchPage url) chainId (fuel + 1 + 1) 0 [] [] = _
    rw [e1, e2]
    simp
  · have hfil1 : p1.filter (fun s => !containsInvalidValue s.name) = p1 :=
      List.filter_eq_self.mpr fun a ha => by simp [hv1 a ha]
    have hfil2 : p2.filter (fun s => !containsInvalidValue s.name) = p2 :=
      List.filter_eq_self.mpr fun a ha => by simp [hv2 a ha]
    rw [List.length_append, transformSilosToTags_fst, transformSilosToTags_fst,
      List.length_map, List.length_map, hfil1, hfil2, hlen1, hlen2]

/-- C6 witness: the mock source fetchW run on chain "1" issues the two
requests with cursors 0 and 7 and returns 1005 tags. -/
theorem claim_C6_witness :
    returnTags fetchW "1" "k" 2 =
      some (.ok ((transformSilosToTags "1" p1W).1 ++ (transformSilosToTags "1" p2W).1),
        [0, maxTimestamp p1W]) ∧
    ((transformSilosToTags "1" p1W).1 ++ (transformSilosToTags "1" p2W).1).length = 1005 ∧
    (∀ (f : Int → Except Thrown (List Silo)) (c : String) (cursor : Int)
        (acc : List TagRow) (reqs : List Int) (silos : List Silo) (fu : Nat),
      f cursor = .ok silos →
      (silos.length = 1000 →
        returnTagsLoop f c (fu + 1) cursor acc reqs =
          returnTagsLoop f c fu (maxTimestamp silos)
            (acc ++ (transformSilosToTags c silos).1) (reqs ++ [cursor])) ∧
      (silos.length ≠ 1000 →
        returnTagsLoop f c (fu + 1) cursor acc reqs =
          some (.ok (acc ++ (transformSilosToTags c silos).1), reqs ++ [cursor]))) := by
  have hmax : maxTimestamp p1W = 7 := by
    rw [show p1W = List.replicate (999 + 1) (⟨"0xaaa", "Alpha", 7⟩ : Silo) from rfl,
      maxTimestamp_replicate]
  exact claim_C6 fetchW "1" "k"
    "https://gateway.thegraph.com/api/k/subgraphs/id/GTEyHhRmhRRJkQfrDWsapcZ8sBKAka4GFej6gn3BpJNq"
    p1W p2W 0
    rfl
    rfl
    (by rw [show p1W = List.replicate 1000 (⟨"0xaaa", "Alpha", 7⟩ : Silo) from rfl,
      List.length_replicate])
    (by rw [hmax]; rfl)
    (by rw [show p2W = List.replicate 5 (⟨"0xbbb", "Beta", 9⟩ : Silo) from rfl,
      List.length_replicate])
    (fun s hs => by rw [List.eq_of_mem_replicate hs]; decide)
    (fun s hs => by rw [List.eq_of_mem_replicate hs]; decide)

/-- C7: a failing page fetch makes the loop return an error instead of
a tag list: whatever tags were already accumulated are dropped, the
thrown message extends the prefix "Failed fetching data" and embeds the
original message when the caught value exposes a string message, and a
caught value without a string message produces the generic unknown
error. -/
theorem claim_C7 (f : Int → Except Thrown (List Silo)) (chainId : String)
    (fuel : Nat) (cursor : Int) (acc : List TagRow) (reqs : List Int) (m : String)
    (hj : f cursor = .error (.jsError m)) :
    returnTagsLoop f chainId (fuel + 1) cursor acc reqs =
      some (.error ("Failed fetching data: " ++ thrownToString (.jsError m)),
        reqs ++ [cursor]) ∧
    (∃ t, "Failed fetching data: " ++ thrownToString (.jsError m) =
      "Failed fetching data" ++ t) ∧
    (∃ pre post, "Failed fetching data: " ++ thrownToString (.jsError m) =
      pre ++ m ++ post) ∧
    (∀ g : Int → Except Thrown (List Silo), g cursor = .error .nonError →
      returnTagsLoop g chainId (fuel + 1) cursor acc reqs =
        some (.error "An unknown error occurred during fetch operation.",
          reqs ++ [cursor])) := by
  refine ⟨?_, ?_, ?_, ?_⟩
  · simp [returnTagsLoop, hj, isError]
  · refine ⟨": " ++ thrownToString (.jsError m), ?_⟩
    rw [← String.append_assoc,
      show "Failed fetching data" ++ ": " = "Failed fetching data: " from rfl]
  · by_cases hm : m = ""
    · subst hm
      exact ⟨"Failed fetching data: Error", "", by decide⟩
    · refine ⟨"Failed fetching data: Error: ", "", ?_⟩
      simp only [thrownToString, if_neg hm]
      rw [← String.append_assoc,
        show "Failed fetching data: " ++ "Error: " = "Failed fetching data: Error: " from rfl,
        String.append_empty]
  · intro g hg
    simp [returnTagsLoop, hg, isError]

/-- C7 witness: the mock source failJsW throws an HTTP 500 Error on the
first request, so the loop fails with the wrapped message and returns
no tags. -/
theorem claim_C7_witness :
    returnTagsLoop failJsW "1" 1 0 [] [] =
      some (.error ("Failed fetching data: " ++
          thrownToString (.jsError "HTTP error: 500")), [0]) ∧
    (∃ t, "Failed fetching data: " ++ thrownToString (.jsError "HTTP error: 500") =
      "Failed fetching data" ++ t) ∧
    (∃ pre post, "Failed fetching data: " ++ thrownToString (.jsError "HTTP error: 500") =
      pre ++ "HTTP error: 500" ++ post) ∧
    (∀ g : Int → Except Thrown (List Silo), g 0 = .error .nonError →
      returnTagsLoop g "1" 1 0 [] [] =
        some (.error "An unknown error occurred during fetch operation.", [0])) :=
  claim_C7 failJsW "1" 0 0 [] [] "HTTP error: 500" rfl

/-- C8: fetchData follows the failure taxonomy exactly: a non-ok
transport response throws the HTTP error carrying the status code; a
body with an errors list logs every message and throws the fixed
generic GraphQL error, whose text is independent of the original
messages; a body missing the data or silos field throws the no-data
error; otherwise the silos list is returned with nothing logged. -/
theorem claim_C8 (r : HttpResponse) :
    (r.ok = false →
      fetchData r = (.error (.jsError ("HTTP error: " ++ toString r.status)), [])) ∧
    (∀ errs, r.ok = true → r.body.errors = some errs →
      fetchData r =
        (.error (.jsError "GraphQL errors occurred: see logs for details."),
         errs.map fun e => "GraphQL error: " ++ e.message)) ∧
    (r.ok = true → r.body.errors = none →
      (r.body.data = none ∨ ∃ d, r.body.data = some d ∧ d.silos = none) →
      fetchData r = (.error (.jsError "No silos data found."), [])) ∧
    (∀ d silos, r.ok = true → r.body.errors = none → r.body.data = some d →
      d.silos = some silos → fetchData r = (.ok silos, [])) := by
  refine ⟨fun hok => ?_, fun errs hok herr => ?_, fun hok herr hdat => ?_,
    fun d silos hok herr hdat hsil => ?_⟩
  · simp [fetchData, hok]
  · simp [fetchData, hok, herr]
  · rcases hdat with h | ⟨d, hd, hs⟩
    · simp [fetchData, hok, herr, h]
    · simp [fetchData, hok, herr, hd, hs]
  · simp [fetchData, hok, herr, hdat, hsil]

/-- C9: the transformer is deterministic, hence idempotent across runs:
equal chain identifiers and equal record lists produce identical
outputs (tag list and rejection log alike). -/
theorem claim_C9 (chainId₁ chainId₂ : String) (silos₁ silos₂ : List Silo)
    (hc : chainId₁ = chainId₂) (hs : silos₁ = silos₂) :
    transformSilosToTags chainId₁ silos₁ = transformSilosToTags chainId₂ silos₂ := by
  rw [hc, hs]

/-- C9 witness: transforming the same single valid record twice gives
identical results. -/
theorem claim_C9_witness :
    transformSilosToTags "1" [⟨"0xa", "Alpha", 7⟩] =
      transformSilosToTags "1" [⟨"0xa", "Alpha", 7⟩] :=
  claim_C9 "1" "1" [⟨"0xa", "Alpha", 7⟩] [⟨"0xa", "Alpha", 7⟩] rfl rfl

/-- C10: a name with surrounding whitespace that is still valid (not
empty after trimming, no HTML tag) is emitted verbatim: the record is
kept, and both the public name tag (when no truncation applies) and the
public note embed the name with its whitespace intact — trimming is
only ever applied inside the validity check. -/
theorem claim_C10 (chainId : String) (silos : List Silo) (silo : Silo)
    (hmem : silo ∈ silos)
    (_hws : silo.name ≠ jsTrimStr silo.name)
    (hne : jsTrimStr silo.name ≠ "")
    (hhtml : hasTag silo.name.data = false) :
    tagOf chainId silo ∈ (transformSilosToTags chainId silos).1 ∧
    (silo.name.data.length ≤ 45 →
      (tagOf chainId silo).lookup "Public Name Tag" = some (silo.name ++ " Silo")) ∧
    (tagOf chainId silo).lookup "Public Note" =
      some ("Silo v1\x27s official " ++ silo.name ++ " Silo contract.") := by
  have hvalid : containsInvalidValue silo.name = false := by
    simp [containsInvalidValue, hne, hhtml]
  refine ⟨?_, fun hlen => ?_, ?_⟩
  · rw [transformSilosToTags_fst]
    exact List.mem_map_of_mem _ (List.mem_filter.mpr ⟨hmem, by simp [hvalid]⟩)
  · have ht : truncateString silo.name 45 = silo.name := by
      simp only [truncateString]
      rw [if_neg (by omega)]
    simp [tagOf, List.lookup, ht]
  · simp [tagOf, List.lookup]

/-- C10 witness: the name " Alpha " (valid, with surrounding
whitespace) is kept verbatim in the public name tag and the note. -/
theorem claim_C10_witness :
    tagOf "1" ⟨"0xa", " Alpha ", 7⟩ ∈
      (transformSilosToTags "1" [⟨"0xa", " Alpha ", 7⟩]).1 ∧
    ((Silo.mk "0xa" " Alpha " 7).name.data.length ≤ 45 →
      (tagOf "1" ⟨"0xa", " Alpha ", 7⟩).lookup "Public Name Tag" =
        some ((Silo.mk "0xa" " Alpha " 7).name ++ " Silo")) ∧
    (tagOf "1" ⟨"0xa", " Alpha ", 7⟩).lookup "Public Note" =
      some ("Silo v1\x27s official " ++ (Silo.mk "0xa" " Alpha " 7).name ++
        " Silo contract.") :=
  claim_C10 "1" [⟨"0xa", " Alpha ", 7⟩] ⟨"0xa", " Alpha ", 7⟩
    (by decide) (by decide) (by decide) (by decide)

end SiloATQ
